import Mathlib

set_option maxRecDepth 100000

/-!
Verification of the zk-escrow-sol claim/proof pipeline.

The repository ships the TypeScript test and utility layer
(`tests/utils.ts`, the escrow / nullifier / verification test suites and
the proof-generation scripts).  The pure functions of `tests/utils.ts`
(`hashClaimInfo`, `serialiseClaimData`, `serializeSignature`,
`calculateNullifier`) and the identifier computation of the
proof-generation script are embedded directly.  The on-chain Anchor
programs themselves are not part of the source tree, so the stateful
operations (escrow accounting, nullifier registry, payment config,
proof verification entry points) are modelled from the specification.

Bytes are `Nat` values below 256, 64-bit lanes are `Nat` values reduced
modulo `2 ^ 64` by explicit masking.
-/

/-- UTF-8 encoding of a single character, as the list of its bytes. -/
def utf8EncodeCharBytes (c : Char) : List Nat :=
  let n := c.toNat
  if n < 128 then [n]
  else if n < 2048 then
    [192 ||| (n >>> 6), 128 ||| (n &&& 63)]
  else if n < 65536 then
    [224 ||| (n >>> 12), 128 ||| ((n >>> 6) &&& 63), 128 ||| (n &&& 63)]
  else
    [240 ||| (n >>> 18), 128 ||| ((n >>> 12) &&& 63),
     128 ||| ((n >>> 6) &&& 63), 128 ||| (n &&& 63)]

/-- UTF-8 encoding of a string (the `toUtf8Bytes` of ethers). -/
def utf8Bytes (s : String) : List Nat :=
  s.data.flatMap utf8EncodeCharBytes

/-- Lowercase hex digit for a value below 16. -/
def hexDigitChar (n : Nat) : Char :=
  if n < 10 then Char.ofNat (48 + n) else Char.ofNat (87 + n)

/-- Two lowercase hex digits of one byte. -/
def byteHexChars (b : Nat) : List Char :=
  [hexDigitChar (b / 16), hexDigitChar (b % 16)]

/-- Lowercase hex rendering of a byte list, without a 0x prefix. -/
def hexOfBytes (bs : List Nat) : String :=
  String.mk (bs.flatMap byteHexChars)

/-- The 64-bit mask 2 ^ 64 - 1. -/
def mask64 : Nat := 0xFFFFFFFFFFFFFFFF

/-- Left rotation of a 64-bit lane by n (0 ≤ n < 64). -/
def rotl64 (x n : Nat) : Nat :=
  ((x <<< n) ||| (x >>> (64 - n))) &&& mask64

/-- The 24 Keccak-f[1600] round constants. -/
def keccakRC : List Nat :=
  [0x0000000000000001, 0x0000000000008082, 0x800000000000808a,
   0x8000000080008000, 0x000000000000808b, 0x0000000080000001,
   0x8000000080008081, 0x8000000000008009, 0x000000000000008a,
   0x0000000000000088, 0x0000000080008009, 0x000000008000000a,
   0x000000008000808b, 0x800000000000008b, 0x8000000000008089,
   0x8000000000008003, 0x8000000000008002, 0x8000000000000080,
   0x000000000000800a, 0x800000008000000a, 0x8000000080008081,
   0x8000000000008080, 0x0000000080000001, 0x8000000080008008]

/-- The rho rotation offsets as an association from lane index
x + 5 * y to the offset, generated by the standard recurrence: start at
lane (1, 0), assign the t-th triangular offset and move through the pi
permutation of coordinates. -/
def keccakRhoEntries : List (Nat × Nat) :=
  ((List.range 24).foldl
    (fun (acc : (Nat × Nat) × List (Nat × Nat)) t =>
      let xy := acc.1
      let off := ((t + 1) * (t + 2) / 2) % 64
      ((xy.2, (2 * xy.1 + 3 * xy.2) % 5), (xy.1 + 5 * xy.2, off) :: acc.2))
    ((1, 0), [])).2

/-- Rho rotation offsets, indexed by lane index x + 5 * y; lane 0 keeps
offset 0. -/
def keccakRho : List Nat :=
  (List.range 25).map fun i => (keccakRhoEntries.lookup i).getD 0

/-- Lane access in a 25-lane state, 0 outside the range. -/
def lane (s : List Nat) (i : Nat) : Nat := s.getD i 0

/-- Theta step of Keccak-f. -/
def keccakTheta (s : List Nat) : List Nat :=
  let c := (List.range 5).map fun x =>
    lane s x ^^^ lane s (x + 5) ^^^ lane s (x + 10) ^^^
      lane s (x + 15) ^^^ lane s (x + 20)
  let d := (List.range 5).map fun x =>
    lane c ((x + 4) % 5) ^^^ rotl64 (lane c ((x + 1) % 5)) 1
  (List.range 25).map fun i => lane s i ^^^ lane d (i % 5)

/-- Combined rho and pi steps of Keccak-f. -/
def keccakRhoPi (s : List Nat) : List Nat :=
  (List.range 25).map fun j =>
    let bx := j % 5
    let by' := j / 5
    let sx := (bx + 3 * by') % 5
    let sy := bx
    rotl64 (lane s (sx + 5 * sy)) (lane keccakRho (sx + 5 * sy))

/-- Chi step of Keccak-f. -/
def keccakChi (b : List Nat) : List Nat :=
  (List.range 25).map fun j =>
    let x := j % 5
    let y := j / 5
    lane b j ^^^ ((lane b ((x + 1) % 5 + 5 * y) ^^^ mask64) &&&
      lane b ((x + 2) % 5 + 5 * y))

/-- One round of Keccak-f with a round constant. -/
def keccakRound (s : List Nat) (rc : Nat) : List Nat :=
  match keccakChi (keccakRhoPi (keccakTheta s)) with
  | [] => []
  | h :: t => (h ^^^ rc) :: t

/-- The full Keccak-f[1600] permutation. -/
def keccakF (s : List Nat) : List Nat :=
  keccakRC.foldl keccakRound s

/-- A little-endian 8-byte group read as one 64-bit lane. -/
def laneOfBytes (bs : List Nat) : Nat :=
  bs.foldr (fun b acc => b + 256 * acc) 0

/-- The 8 little-endian bytes of one 64-bit lane. -/
def bytesOfLane (n : Nat) : List Nat :=
  (List.range 8).map fun k => (n >>> (8 * k)) &&& 255

/-- XOR a 136-byte block into the first 17 lanes and permute. -/
def absorbBlock (st : List Nat) (block : List Nat) : List Nat :=
  let lanes := (List.range 17).map fun i => laneOfBytes ((block.drop (8 * i)).take 8)
  keccakF ((List.range 25).map fun j =>
    if j < 17 then lane st j ^^^ lane lanes j else lane st j)

/-- Split a byte list into blocks of 136 bytes, with explicit fuel. -/
def blocks136 : Nat → List Nat → List (List Nat)
  | 0, _ => []
  | _ + 1, [] => []
  | fuel + 1, l => l.take 136 :: blocks136 fuel (l.drop 136)

/-- Keccak multi-rate padding to a multiple of 136 bytes. -/
def keccakPad (msg : List Nat) : List Nat :=
  let r := 136 - msg.length % 136
  if r = 1 then msg ++ [0x81]
  else msg ++ 0x01 :: (List.replicate (r - 2) 0 ++ [0x80])

/-- The Keccak-256 digest (32 bytes) of a byte list. -/
def keccak256Bytes (msg : List Nat) : List Nat :=
  let padded := keccakPad msg
  let st := (blocks136 padded.length padded).foldl absorbBlock (List.replicate 25 0)
  (List.range 4).flatMap fun i => bytesOfLane (lane st i)

/-- The keccak256 of ethers applied to the UTF-8 bytes of a string:
a lowercase hex string with a 0x prefix. -/
def keccak256hex (s : String) : String :=
  "0x" ++ hexOfBytes (keccak256Bytes (utf8Bytes s))

/-! ## Embedding of tests/utils.ts -/

/-- The ClaimInfo record of tests/utils.ts. -/
structure ClaimInfo where
  provider : String
  parameters : String
  context : String
deriving DecidableEq

/-- The CompleteClaimData record of tests/utils.ts.  The numeric fields
are JavaScript numbers holding nonnegative integers, embedded as Nat. -/
structure CompleteClaimData where
  identifier : String
  owner : String
  timestampS : Nat
  epoch : Nat
deriving DecidableEq

/-- ASCII lowercasing of one character, as the toLowerCase of
JavaScript acts on the ASCII range (owner addresses are ASCII hex). -/
def asciiLowerChar (c : Char) : Char :=
  if 65 ≤ c.toNat ∧ c.toNat ≤ 90 then Char.ofNat (c.toNat + 32) else c

/-- ASCII lowercasing of a string (the toLowerCase call of
serialiseClaimData, restricted to the ASCII alphabet). -/
def jsToLowerCase (s : String) : String :=
  String.mk (s.data.map asciiLowerChar)

/-- serialiseClaimData of tests/utils.ts: the four claim fields joined
by newlines, the owner lowercased, the integers in decimal. -/
def serialiseClaimData (claimData : CompleteClaimData) : String :=
  String.intercalate "\n"
    [claimData.identifier,
     jsToLowerCase claimData.owner,
     toString claimData.timestampS,
     toString claimData.epoch]

/-- hashClaimInfo of tests/utils.ts: keccak256 of the UTF-8 bytes of
provider, a newline, parameters, a newline and context, joined with the
empty separator. -/
def hashClaimInfo (claimInfo : ClaimInfo) : String :=
  keccak256hex (String.join
    [claimInfo.provider, "\n", claimInfo.parameters, "\n", claimInfo.context])

/-- serializeSignature of tests/utils.ts, on the byte level: the hex
string input has already been turned into bytes by getBytes; the
function throws unless there are exactly 65 bytes and otherwise returns
the bytes unchanged. -/
def serializeSignature (bytes : List Nat) : Except String (List Nat) :=
  if bytes.length ≠ 65 then
    Except.error ("Invalid signature length: " ++ toString bytes.length)
  else
    Except.ok bytes

/-- The Ethereum personal-sign preimage used by getMessageHash and by
the static signature test: the prefix, the decimal length of the
message, then the message itself. -/
def ethSignedMessage (m : String) : String :=
  "\x19Ethereum Signed Message:\n" ++ toString m.length ++ m

/-- calculateNullifier of tests/utils.ts, after JSON.parse: the context
is represented by its extractedParameters object, a finite map from
field names to string values.  The JavaScript truthiness test
(!params.senderNickname) throws both when the field is absent and when
its value is the empty string.  On success the function returns
hash.slice(2, 34), the lowercase hex of the first 16 digest bytes. -/
def calculateNullifier (params : List (String × String)) : Except String String :=
  match params.lookup "senderNickname" with
  | none => Except.error "Missing senderNickname in context"
  | some nick =>
    if nick = "" then Except.error "Missing senderNickname in context"
    else
      match params.lookup "transactionDate" with
      | none => Except.error "Missing transactionDate in context"
      | some date =>
        if date = "" then Except.error "Missing transactionDate in context"
        else
          Except.ok (hexOfBytes ((keccak256Bytes (utf8Bytes (nick ++ date))).take 16))

/-- The identifier computation of the generateProof2 script: keccak256
of provider, a newline and context, with no parameters field in the
preimage. -/
def hashClaimInfoNoParameters (provider context : String) : String :=
  keccak256hex (String.join [provider, "\n", context])

/-- The extractedParameters of the generateProof2 fixture, carrying
senderNickname anvil-1 and transactionDate 2025-07-25 12:20:09. -/
def anvilContextParams : List (String × String) :=
  [("documentTitle", "송금확인증"),
   ("receivingBankAccount", "100000021389(토스뱅크)"),
   ("recipientName", "이현민"),
   ("senderNickname", "anvil-1"),
   ("transactionAmount", "-138"),
   ("transactionDate", "2025-07-25 12:20:09")]

/-! ## The witness signature scheme

The elliptic-curve primitive (sign with a secp256k1 private key,
recover the signer address) lives in the external ethers library, not
in this repository, so it is abstracted as a scheme; the repository
code contributes the exact message that is signed and recovered over. -/

/-- An abstract recoverable signature scheme: private keys are Nat,
addresses are strings. -/
structure SigScheme where
  sign : Nat → String → List Nat
  addrOf : Nat → String
  recover : String → List Nat → String

/-- The documented contract of the external recoverable-signature
primitive: recovery over the exact signed message yields the address
of the signing key. -/
def RecoverRoundTrip (sch : SigScheme) : Prop :=
  ∀ sk m, sch.recover m (sch.sign sk m) = sch.addrOf sk

/-- Witness-side signing of a claim: the scheme is applied to the
Ethereum-prefixed serialised claim data. -/
def signClaim (sch : SigScheme) (sk : Nat) (cd : CompleteClaimData) : List Nat :=
  sch.sign sk (ethSignedMessage (serialiseClaimData cd))

/-- Verifier-side recovery over a claim: the scheme recovers over the
same Ethereum-prefixed serialised claim data. -/
def recoverClaimSigner (sch : SigScheme) (cd : CompleteClaimData)
    (sig : List Nat) : String :=
  sch.recover (ethSignedMessage (serialiseClaimData cd)) sig

/-- A trivial concrete scheme satisfying the round-trip contract, used
to instantiate hypotheses at concrete inputs. -/
def unitScheme : SigScheme where
  sign sk _ := [sk]
  addrOf sk := toString sk
  recover _ sig := toString (sig.headD 0)

/-! ## Spec-modelled on-chain operations

The Anchor programs (zk_escrow_sol, token_escrow, nullifier_registry)
are not under the source tree; only their tests, fixtures and callers
are.  The following definitions are modelled from the specification. -/

/-- The error taxonomy of the specification. -/
inductive VError where
  | InvalidSignatureLength
  | AddressMismatch
  | InvalidThreshold
  | IdentifierMismatch
  | PaymentMismatch
  | AlreadyUsed
  | NotVerified
  | Unauthorized
  | MissingField
  | AlreadyInitialized
  | InsufficientFunds
deriving DecidableEq

/-- Model-level ClaimInfo: the context is represented by its parsed
extractedParameters map, as in calculateNullifier. -/
structure MClaimInfo where
  provider : String
  parameters : String
  context : List (String × String)

/-- Model-level SignedClaim: claim data plus one 65-byte signature per
attesting witness. -/
structure MSignedClaim where
  claim : CompleteClaimData
  signatures : List (List Nat)

/-- Model-level Proof bundle. -/
structure MProof where
  claimInfo : MClaimInfo
  signedClaim : MSignedClaim

/-- Modelled from the spec: the signature/threshold validation of the
missing verification program (section 4.3).  If the proof carries
fewer signatures than the required threshold the check fails with
InvalidThreshold before any recovery (the repository threshold test
observes InvalidThreshold even with an altered identifier); each
signature is then recovered over the Ethereum-prefixed signing message,
matched case-insensitively against the expected witnesses and
deduplicated; AddressMismatch when no recovered signer matches,
InvalidThreshold when too few distinct ones do. -/
def verifySignatures (recover : String → List Nat → String)
    (expectedWitnesses : List String) (requiredThreshold : Nat)
    (sc : MSignedClaim) : Except VError Unit :=
  if sc.signatures.length < requiredThreshold then
    Except.error VError.InvalidThreshold
  else
    let msg := ethSignedMessage (serialiseClaimData sc.claim)
    let recovered := sc.signatures.map (recover msg)
    let matched := (recovered.filter fun a =>
      expectedWitnesses.any fun w => jsToLowerCase w == jsToLowerCase a).eraseDups
    if matched.length = 0 then Except.error VError.AddressMismatch
    else if matched.length < requiredThreshold then
      Except.error VError.InvalidThreshold
    else Except.ok ()

/-- Modelled from the spec: the signature-only verification entry
point of the missing verification program (verify_proof_only, no
payment validation, no nullifier). -/
def verifyProofOnly (recover : String → List Nat → String) (proof : MProof)
    (expectedWitnesses : List String) (requiredThreshold : Nat) :
    Except VError Unit :=
  verifySignatures recover expectedWitnesses requiredThreshold proof.signedClaim

/-- The numeric magnitude of a recorded amount string: sign and
separators dropped, the decimal digits read as a number (the spec
compares the absolute value of strings such as -1000). -/
def absAmountDigits (s : String) : Nat :=
  (s.data.filter Char.isDigit).foldl (fun acc c => acc * 10 + (c.toNat - 48)) 0

/-- The PaymentConfig record of the specification, keyed externally by
its authority. -/
structure PaymentConfig where
  recipientBankAccount : String
  allowedAmount : Nat
  fiatCurrency : String
deriving DecidableEq

/-- Modelled from the spec: the payment-detail check of the missing
verification program (section 4.3 step 5): the receiving bank account
must equal the configured recipient and the magnitude of the
transaction amount must equal the allowed amount. -/
def checkPaymentDetails (cfg : PaymentConfig)
    (context : List (String × String)) : Except VError Unit :=
  match context.lookup "receivingBankAccount",
        context.lookup "transactionAmount" with
  | some acct, some amt =>
    if acct = cfg.recipientBankAccount ∧ absAmountDigits amt = cfg.allowedAmount
    then Except.ok ()
    else Except.error VError.PaymentMismatch
  | _, _ => Except.error VError.PaymentMismatch

/-- The nullifier derivation used by the on-chain flow, reusing
calculateNullifier (whose comment records that it must match the
on-chain computation); failures become the MissingField error. -/
def modelNullifier (context : List (String × String)) : Except VError String :=
  (calculateNullifier context).mapError fun _ => VError.MissingField

/-- Modelled from the spec: the combined escrow and nullifier-registry
state of the missing programs.  Token balances are an address-keyed
map, consumed nullifiers an append-only list of hex keys. -/
structure EscrowState where
  requiredThreshold : Nat
  admin : String
  expectedWitnesses : List String
  vault : Nat
  balances : List (String × Nat)
  usedNullifiers : List String
deriving DecidableEq

/-- The token balance of a user, 0 when no entry exists. -/
def getBalance (st : EscrowState) (user : String) : Nat :=
  (st.balances.lookup user).getD 0

/-- Modelled from the spec: the unconditional deposit of the missing
escrow program; the vault grows by the amount and the depositor
balance shrinks by it (truncated at zero). -/
def deposit (st : EscrowState) (depositor : String) (amount : Nat) :
    EscrowState :=
  { st with
    vault := st.vault + amount,
    balances := (depositor, getBalance st depositor - amount) :: st.balances }

/-- Modelled from the spec: the proof-gated withdraw of the missing
escrow program.  The nullifier record is claimed first (its account
creation precedes the instruction body, which is why the spec promises
AlreadyUsed on replay regardless of identifier alteration), then the
witness signatures and the payment details are checked, then the funds
move. -/
def withdraw (recover : String → List Nat → String) (cfg : PaymentConfig)
    (st : EscrowState) (user : String) (amount : Nat) (proof : MProof) :
    Except VError EscrowState :=
  match modelNullifier proof.claimInfo.context with
  | Except.error e => Except.error e
  | Except.ok nh =>
    if nh ∈ st.usedNullifiers then Except.error VError.AlreadyUsed
    else
      match verifySignatures recover st.expectedWitnesses st.requiredThreshold
          proof.signedClaim with
      | Except.error e => Except.error e
      | Except.ok _ =>
        match checkPaymentDetails cfg proof.claimInfo.context with
        | Except.error e => Except.error e
        | Except.ok _ =>
          if amount ≤ st.vault then
            Except.ok { st with
              vault := st.vault - amount,
              usedNullifiers := nh :: st.usedNullifiers,
              balances := (user, getBalance st user + amount) :: st.balances }
          else Except.error VError.InsufficientFunds

/-- The state after a withdraw attempt: the new state on success, the
unchanged input state on failure (one logical operation commits fully
or not at all). -/
def runWithdraw (recover : String → List Nat → String) (cfg : PaymentConfig)
    (st : EscrowState) (user : String) (amount : Nat) (proof : MProof) :
    EscrowState :=
  match withdraw recover cfg st user amount proof with
  | Except.ok st2 => st2
  | Except.error _ => st

/-- Modelled from the spec: payment-config creation of the missing
verification program; one config per authority key, creation fails
with AlreadyInitialized when a config for that authority exists. -/
def initPaymentConfig (store : List (String × PaymentConfig))
    (authority : String) (cfg : PaymentConfig) :
    Except VError (List (String × PaymentConfig)) :=
  match store.lookup authority with
  | some _ => Except.error VError.AlreadyInitialized
  | none => Except.ok ((authority, cfg) :: store)

/-- The store after a payment-config creation attempt: unchanged on
failure. -/
def runInitPaymentConfig (store : List (String × PaymentConfig))
    (authority : String) (cfg : PaymentConfig) :
    List (String × PaymentConfig) :=
  match initPaymentConfig store authority cfg with
  | Except.ok s => s
  | Except.error _ => store

/-- Whether an Except value is a success. -/
def exceptIsOk : Except VError EscrowState → Bool
  | Except.ok _ => true
  | Except.error _ => false

/-! ## Concrete scenario data -/

/-- A concrete recovery function for scenarios: the byte list [1]
recovers to the scenario witness address. -/
def scenarioRecover : String → List Nat → String :=
  fun _ sig => if sig = [1] then "0xwitness1" else "0xnobody"

/-- The payment config matching the anvil-1 fixture context. -/
def scenarioCfg : PaymentConfig :=
  { recipientBankAccount := "100000021389(토스뱅크)",
    allowedAmount := 138,
    fiatCurrency := "KRW" }

/-- A single-witness proof over the anvil-1 fixture context. -/
def scenarioProof : MProof :=
  { claimInfo := { provider := "http", parameters := "", context := anvilContextParams },
    signedClaim :=
      { claim := { identifier := "0xid", owner := "0xOwner",
                   timestampS := 1760583047, epoch := 1 },
        signatures := [[1]] } }

/-- The freshly initialised escrow of the scenario: threshold 1, one
expected witness, empty vault and registry. -/
def scenarioState0 : EscrowState :=
  { requiredThreshold := 1,
    admin := "0xadmin",
    expectedWitnesses := ["0xwitness1"],
    vault := 0,
    balances := [],
    usedNullifiers := [] }

/-- The scenario state after the deposit of 1000 units. -/
def scenarioState1 : EscrowState := deposit scenarioState0 "depositor" 1000

/-- The scenario state after the first successful withdraw of 13. -/
def scenarioState2 : EscrowState :=
  runWithdraw scenarioRecover scenarioCfg scenarioState1 "user" 13 scenarioProof

/-! ## Sanity theorems for the Keccak implementation -/

/-- Sanity: the Keccak-256 digest of the empty input matches the
well-known test vector. -/
theorem keccak256hex_empty :
    keccak256hex "" =
      "0xc5d2460186f7233c927e7db2dcc703c0e500b653ca82273b7bfad8045d85a470" := by
  decide

/-- Sanity: the Keccak-256 digest of the ASCII string abc matches the
well-known test vector. -/
theorem keccak256hex_abc :
    keccak256hex "abc" =
      "0x4e03657aea45a94fc7d47ba826c8d667c0d1e6e33a64a036ec44f58fa12d6c45" := by
  decide

/-! ## Claims about the hashing and serialisation layer -/

/-- Claim C3: for every ClaimInfo record, the claim identifier is the
keccak256 of the UTF-8 bytes of the provider, a newline, the parameters
string, a newline and the context string, concatenated in that order. -/
theorem claim_identifier_is_keccak_of_joined_fields (ci : ClaimInfo) :
    hashClaimInfo ci =
      keccak256hex (ci.provider ++ "\n" ++ ci.parameters ++ "\n" ++ ci.context) := by
  simp [hashClaimInfo, String.join]

/-- Claim C4: the witness signing message is the identifier, the
lowercased owner, the decimal timestamp and the decimal epoch, joined
by single newline characters in that order. -/
theorem signing_message_is_newline_joined_fields (cd : CompleteClaimData) :
    serialiseClaimData cd =
      cd.identifier ++ "\n" ++ jsToLowerCase cd.owner ++ "\n" ++
        toString cd.timestampS ++ "\n" ++ toString cd.epoch := by
  simp [serialiseClaimData, String.intercalate, String.intercalate.go,
    String.append_assoc]

/-- Claim C8: signature deserialization fails with the invalid-length
error exactly when the input is not 65 bytes; a 65-byte input is
returned unchanged and decomposes as r (32 bytes), s (32 bytes) and v
(1 byte). -/
theorem signature_deserialization_length_check (bytes : List Nat) :
    ((∃ e, serializeSignature bytes = Except.error e) ↔ bytes.length ≠ 65) ∧
    (bytes.length = 65 →
      serializeSignature bytes = Except.ok bytes ∧
      bytes = bytes.take 32 ++ ((bytes.drop 32).take 32 ++ bytes.drop 64) ∧
      (bytes.take 32).length = 32 ∧ ((bytes.drop 32).take 32).length = 32 ∧
      (bytes.drop 64).length = 1) := by
  refine ⟨⟨fun ⟨e, he⟩ h65 => ?_,
      fun h => ⟨"Invalid signature length: " ++ toString bytes.length,
        by simp [serializeSignature, h]⟩⟩,
    fun h => ⟨by simp [serializeSignature, h], ?_, ?_⟩⟩
  · simp [serializeSignature, h65] at he
  · have h64 : (64 : Nat) = 32 + 32 := rfl
    rw [h64, ← List.drop_drop, List.take_append_drop, List.take_append_drop]
  · simp [List.length_take, List.length_drop, h]

/-- Witness to claim C8 at a concrete 65-byte input. -/
theorem signature_deserialization_length_check_witness :
    (List.replicate 65 7).length = 65 ∧
      serializeSignature (List.replicate 65 7) = Except.ok (List.replicate 65 7) :=
  ⟨by decide,
   ((signature_deserialization_length_check (List.replicate 65 7)).2 (by decide)).1⟩

/-- Counterexample to claim C2 as stated: in this context the
senderNickname field is present under extractedParameters (with the
empty string as its value) and transactionDate is present and
non-empty, yet the derivation fails, because the JavaScript truthiness
test (!params.senderNickname) also rejects an empty value. -/
theorem nullifier_empty_nickname_counterexample :
    ([("senderNickname", ""), ("transactionDate", "2025-07-25 12:20:09")]
        : List (String × String)).lookup "senderNickname" = some "" ∧
    calculateNullifier
        [("senderNickname", ""), ("transactionDate", "2025-07-25 12:20:09")] =
      Except.error "Missing senderNickname in context" :=
  ⟨rfl, rfl⟩

/-- Claim C2, amended: for every context whose extractedParameters
carry senderNickname and transactionDate with non-empty values, the
nullifier is the lowercase hex of the first 16 bytes of the keccak256
of the UTF-8 bytes of their concatenation; the derivation fails with a
missing-field error whenever senderNickname is absent or empty, and
whenever it is present and non-empty but transactionDate is absent or
empty; and on the anvil-1 fixture the result equals the independently
computed digest prefix, byte for byte. -/
theorem nullifier_derivation_amended :
    (∀ (params : List (String × String)) (nick date : String),
        params.lookup "senderNickname" = some nick → nick ≠ "" →
        params.lookup "transactionDate" = some date → date ≠ "" →
        calculateNullifier params =
          Except.ok (hexOfBytes ((keccak256Bytes (utf8Bytes (nick ++ date))).take 16))) ∧
    (∀ params : List (String × String),
        params.lookup "senderNickname" = none →
        calculateNullifier params = Except.error "Missing senderNickname in context") ∧
    (∀ params : List (String × String),
        params.lookup "senderNickname" = some "" →
        calculateNullifier params = Except.error "Missing senderNickname in context") ∧
    (∀ (params : List (String × String)) (nick : String),
        params.lookup "senderNickname" = some nick → nick ≠ "" →
        params.lookup "transactionDate" = none →
        calculateNullifier params = Except.error "Missing transactionDate in context") ∧
    (∀ (params : List (String × String)) (nick : String),
        params.lookup "senderNickname" = some nick → nick ≠ "" →
        params.lookup "transactionDate" = some "" →
        calculateNullifier params = Except.error "Missing transactionDate in context") ∧
    calculateNullifier anvilContextParams =
      Except.ok "1f2258a72faff5338219a7ace066f8a8" := by
  refine ⟨fun params nick date h1 h2 h3 h4 => ?_, fun params h => ?_,
    fun params h => ?_, fun params nick h1 h2 h3 => ?_,
    fun params nick h1 h2 h3 => ?_, ?_⟩
  · simp [calculateNullifier, h1, h2, h3, h4]
  · simp [calculateNullifier, h]
  · simp [calculateNullifier, h]
  · simp [calculateNullifier, h1, h2, h3]
  · simp [calculateNullifier, h1, h2, h3]
  · have h1 : anvilContextParams.lookup "senderNickname" = some "anvil-1" := rfl
    have h3 : anvilContextParams.lookup "transactionDate" =
        some "2025-07-25 12:20:09" := rfl
    simp [calculateNullifier, h1, h3]
    decide

/-- Witness to the amended claim C2 at the anvil-1 fixture. -/
theorem nullifier_derivation_amended_witness :
    calculateNullifier anvilContextParams =
      Except.ok (hexOfBytes ((keccak256Bytes
        (utf8Bytes ("anvil-1" ++ "2025-07-25 12:20:09"))).take 16)) :=
  nullifier_derivation_amended.1 anvilContextParams "anvil-1"
    "2025-07-25 12:20:09" rfl (by decide) rfl (by decide)

/-- Claim C10: padding hashClaimInfo with an empty parameters string
never reproduces the parameter-omitting identifier of the
proof-generation script.  The hashed preimages differ for every
provider and context (the empty-parameters preimage carries two
consecutive newlines, so it is one character longer), and at a
concrete input the two identifiers themselves differ. -/
theorem empty_parameters_identifier_differs :
    (∀ provider context : String,
        String.join [provider, "\n", ("" : String), "\n", context] ≠
          String.join [provider, "\n", context]) ∧
    hashClaimInfo ⟨"p", "", "c"⟩ ≠ hashClaimInfoNoParameters "p" "c" := by
  constructor
  · intro provider context h
    have hlen := congrArg String.length h
    have h1 : ("\n" : String).length = 1 := rfl
    simp [String.join, h1] at hlen
  · decide

/-! ## Claims about the modelled on-chain operations -/

/-- The nullifier derivation only reads the senderNickname and
transactionDate fields of the context. -/
theorem calculateNullifier_congr (a b : List (String × String))
    (h1 : a.lookup "senderNickname" = b.lookup "senderNickname")
    (h2 : a.lookup "transactionDate" = b.lookup "transactionDate") :
    calculateNullifier a = calculateNullifier b := by
  simp [calculateNullifier, h1, h2]

/-- A successful withdraw derived some nullifier from the proof context
and appended it to the consumed set. -/
theorem withdraw_ok_structure (recover : String → List Nat → String)
    (cfg : PaymentConfig) (st st1 : EscrowState) (user : String) (amount : Nat)
    (proof : MProof)
    (h : withdraw recover cfg st user amount proof = Except.ok st1) :
    ∃ nh, modelNullifier proof.claimInfo.context = Except.ok nh ∧
      st1.usedNullifiers = nh :: st.usedNullifiers := by
  unfold withdraw at h
  cases hm : modelNullifier proof.claimInfo.context with
  | error e => simp only [hm] at h; cases h
  | ok nh =>
    simp only [hm] at h
    refine ⟨nh, rfl, ?_⟩
    by_cases hc : nh ∈ st.usedNullifiers
    · rw [if_pos hc] at h; cases h
    · rw [if_neg hc] at h
      cases hv : verifySignatures recover st.expectedWitnesses
          st.requiredThreshold proof.signedClaim with
      | error e => simp only [hv] at h; cases h
      | ok u =>
        simp only [hv] at h
        cases hp : checkPaymentDetails cfg proof.claimInfo.context with
        | error e => simp only [hp] at h; cases h
        | ok w =>
          simp only [hp] at h
          by_cases hle : amount ≤ st.vault
          · rw [if_pos hle] at h
            cases h
            rfl
          · rw [if_neg hle] at h; cases h

/-- Claim C1: after any successful withdraw, a second submission whose
context carries the same senderNickname and transactionDate pair fails
with AlreadyUsed — the identifier, the signatures, the caller and the
amount of the second proof are unconstrained — and the failed attempt
leaves the state untouched: the vault balance and the user balance are
exactly what they were before the attempt. -/
theorem replay_with_same_context_fails_already_used
    (recover : String → List Nat → String) (cfg : PaymentConfig)
    (st st1 : EscrowState) (user user2 : String) (amount amount2 : Nat)
    (p1 p2 : MProof)
    (hnick : p2.claimInfo.context.lookup "senderNickname" =
      p1.claimInfo.context.lookup "senderNickname")
    (hdate : p2.claimInfo.context.lookup "transactionDate" =
      p1.claimInfo.context.lookup "transactionDate")
    (h1 : withdraw recover cfg st user amount p1 = Except.ok st1) :
    withdraw recover cfg st1 user2 amount2 p2 = Except.error VError.AlreadyUsed ∧
    runWithdraw recover cfg st1 user2 amount2 p2 = st1 ∧
    (runWithdraw recover cfg st1 user2 amount2 p2).vault = st1.vault ∧
    getBalance (runWithdraw recover cfg st1 user2 amount2 p2) user2 =
      getBalance st1 user2 := by
  obtain ⟨nh, hn, hu⟩ := withdraw_ok_structure recover cfg st st1 user amount p1 h1
  have hn2 : modelNullifier p2.claimInfo.context = Except.ok nh := by
    unfold modelNullifier at hn ⊢
    rw [calculateNullifier_congr p2.claimInfo.context p1.claimInfo.context hnick hdate]
    exact hn
  have hc : nh ∈ st1.usedNullifiers := by
    rw [hu]; exact List.mem_cons_self nh st.usedNullifiers
  have hw : withdraw recover cfg st1 user2 amount2 p2 =
      Except.error VError.AlreadyUsed := by
    unfold withdraw
    simp only [hn2]
    rw [if_pos hc]
  refine ⟨hw, ?_, ?_, ?_⟩ <;> simp [runWithdraw, hw]

/-- Witness to claim C1: the concrete scenario withdraw succeeds once
and its exact replay fails with AlreadyUsed, leaving the state as it
was. -/
theorem replay_with_same_context_witness :
    withdraw scenarioRecover scenarioCfg scenarioState2 "user" 13 scenarioProof =
      Except.error VError.AlreadyUsed ∧
    runWithdraw scenarioRecover scenarioCfg scenarioState2 "user" 13 scenarioProof =
      scenarioState2 :=
  have h1 : withdraw scenarioRecover scenarioCfg scenarioState1 "user" 13
      scenarioProof = Except.ok scenarioState2 := rfl
  have hm := replay_with_same_context_fails_already_used scenarioRecover
    scenarioCfg scenarioState1 scenarioState2 "user" "user" 13 13
    scenarioProof scenarioProof rfl rfl h1
  ⟨hm.1, hm.2.1⟩

/-- Claim C5: whenever the signed claim carries fewer signatures than
the required threshold, signature-only verification fails with
InvalidThreshold, for every witness set and every recovery function. -/
theorem too_few_signatures_fails_invalid_threshold
    (recover : String → List Nat → String) (proof : MProof)
    (expectedWitnesses : List String) (requiredThreshold : Nat)
    (h : proof.signedClaim.signatures.length < requiredThreshold) :
    verifyProofOnly recover proof expectedWitnesses requiredThreshold =
      Except.error VError.InvalidThreshold := by
  unfold verifyProofOnly verifySignatures
  rw [if_pos h]

/-- Witness to claim C5: a one-signature proof against threshold 2. -/
theorem too_few_signatures_witness :
    scenarioProof.signedClaim.signatures.length < 2 ∧
    verifyProofOnly scenarioRecover scenarioProof ["0xwitness1"] 2 =
      Except.error VError.InvalidThreshold :=
  ⟨by decide,
   too_few_signatures_fails_invalid_threshold scenarioRecover scenarioProof
     ["0xwitness1"] 2 (by decide)⟩

/-- Claim C6: deposit unconditionally grows the vault by exactly the
amount, for every state, depositor and amount; and in the concrete
scenario a deposit of 1000 followed by a withdraw of 13 with a valid
single-witness proof (threshold 1) succeeds, leaves the vault at 987
and raises the user balance by exactly 13. -/
theorem deposit_adds_amount_and_withdraw_scenario :
    (∀ (st : EscrowState) (depositor : String) (amount : Nat),
        (deposit st depositor amount).vault = st.vault + amount) ∧
    scenarioState0.requiredThreshold = 1 ∧
    scenarioState1.vault = 1000 ∧
    exceptIsOk (withdraw scenarioRecover scenarioCfg scenarioState1 "user" 13
      scenarioProof) = true ∧
    scenarioState2.vault = 987 ∧
    getBalance scenarioState2 "user" = getBalance scenarioState1 "user" + 13 := by
  refine ⟨fun st d amount => rfl, rfl, rfl, ?_, ?_, ?_⟩ <;> rfl

/-- Claim C7: for every signature scheme satisfying the documented
round-trip contract of the external recoverable-signature primitive,
signing the Ethereum-prefixed serialised claim data with a witness key
and recovering over that exact message yields the witness address. -/
theorem sign_recover_round_trip (sch : SigScheme) (h : RecoverRoundTrip sch)
    (sk : Nat) (cd : CompleteClaimData) :
    recoverClaimSigner sch cd (signClaim sch sk cd) = sch.addrOf sk :=
  h sk (ethSignedMessage (serialiseClaimData cd))

/-- Witness to claim C7 with a concrete scheme and claim. -/
theorem sign_recover_round_trip_witness :
    recoverClaimSigner unitScheme ⟨"0xid", "0xOwner", 1760583047, 1⟩
        (signClaim unitScheme 5 ⟨"0xid", "0xOwner", 1760583047, 1⟩) =
      unitScheme.addrOf 5 :=
  sign_recover_round_trip unitScheme (fun _ _ => rfl) 5
    ⟨"0xid", "0xOwner", 1760583047, 1⟩

/-- Claim C9: once a payment config has been created for an authority,
creating one again for the same authority fails with
AlreadyInitialized, the store is left unchanged, and the stored
recipient bank account, allowed amount and fiat currency are still the
ones of the first creation. -/
theorem init_payment_config_never_overwrites
    (store store1 : List (String × PaymentConfig)) (authority : String)
    (cfg1 cfg2 : PaymentConfig)
    (h : initPaymentConfig store authority cfg1 = Except.ok store1) :
    initPaymentConfig store1 authority cfg2 =
      Except.error VError.AlreadyInitialized ∧
    runInitPaymentConfig store1 authority cfg2 = store1 ∧
    store1.lookup authority = some cfg1 := by
  unfold initPaymentConfig at h
  cases hl : store.lookup authority with
  | some c => simp only [hl] at h; cases h
  | none =>
    simp only [hl] at h
    cases h
    have hl2 : ((authority, cfg1) :: store).lookup authority = some cfg1 := by
      simp [List.lookup]
    refine ⟨?_, ?_, hl2⟩
    · unfold initPaymentConfig
      simp only [hl2]
    · unfold runInitPaymentConfig initPaymentConfig
      simp only [hl2]

/-- Witness to claim C9 at a concrete store. -/
theorem init_payment_config_never_overwrites_witness :
    initPaymentConfig [("auth1", scenarioCfg)] "auth1" scenarioCfg =
      Except.error VError.AlreadyInitialized ∧
    runInitPaymentConfig [("auth1", scenarioCfg)] "auth1" scenarioCfg =
      [("auth1", scenarioCfg)] :=
  have h1 : initPaymentConfig [] "auth1" scenarioCfg =
      Except.ok [("auth1", scenarioCfg)] := rfl
  have hm := init_payment_config_never_overwrites [] [("auth1", scenarioCfg)]
    "auth1" scenarioCfg scenarioCfg h1
  ⟨hm.1, hm.2.1⟩
